import Mathlib

/-!
Verification development for a CSV-tailing converter service
(src/csv_parser_service.py).

The service has two core operations, modelled here as pure functions:

- prune_file (source lines 45-140): rewrites a CSV or JSONL file,
  keeping only records within the retention period, returning the number
  of lines kept, or a failure marker (Python None, modelled as Option.none).
- tail_csv_and_convert (source lines 143-233): a scheduling loop that
  periodically prunes both files and then reads data rows past an integer
  cursor, converting each to a JSON record appended to the destination.

Machine-level aspects are embedded as follows: a file either exists
(carrying its parsed contents) or not, so a file argument has an Option
type; a mid-operation exception of the Python code is modelled by an
explicit failure flag (for pruning) or by an index of the write at which
the append raises (for tailing), since the except blocks of the source
contain every such exception.  Python datetimes are modelled by the
PyDateTime structure; datetime.fromisoformat, datetime.strftime and
float literal acceptance are modelled character by character below.
-/

/-- Python datetime values as produced by datetime.fromisoformat: the stored
calendar and clock fields, plus the tzinfo as an optional UTC offset in
minutes (Option.none models a naive datetime). -/
structure PyDateTime where
  year : Nat
  month : Nat
  day : Nat
  hour : Nat
  minute : Nat
  second : Nat
  microsecond : Nat
  tzOffsetMinutes : Option Int
deriving DecidableEq

/-- Numeric value of an ASCII digit character, if it is one. -/
def digitVal (c : Char) : Option Nat :=
  if c.isDigit then some (c.toNat - 48) else none

/-- Reads exactly two digit characters. -/
def parse2 : List Char → Option (Nat × List Char)
  | c1 :: c2 :: rest => do
    let d1 ← digitVal c1
    let d2 ← digitVal c2
    pure (10 * d1 + d2, rest)
  | _ => none

/-- Reads exactly four digit characters. -/
def parse4 : List Char → Option (Nat × List Char)
  | c1 :: c2 :: c3 :: c4 :: rest => do
    let d1 ← digitVal c1
    let d2 ← digitVal c2
    let d3 ← digitVal c3
    let d4 ← digitVal c4
    pure (1000 * d1 + 100 * d2 + 10 * d3 + d4, rest)
  | _ => none

/-- Consumes one expected character. -/
def expectChar (c : Char) : List Char → Option (List Char)
  | c2 :: rest => if c2 = c then some rest else none
  | [] => none

/-- Consumes a maximal run of digit characters. -/
def takeDigits : List Char → List Nat × List Char
  | c :: rest =>
    match digitVal c with
    | some d =>
      let r := takeDigits rest
      (d :: r.1, r.2)
    | none => ([], c :: rest)
  | [] => ([], [])

/-- Leap years of the proleptic Gregorian calendar used by Python datetime. -/
def isLeapYear (y : Nat) : Bool :=
  decide ((y % 4 = 0 ∧ y % 100 ≠ 0) ∨ y % 400 = 0)

/-- Day count of a month, as validated by the datetime constructor. -/
def daysInMonth (y m : Nat) : Nat :=
  if m = 2 then (if isLeapYear y then 29 else 28)
  else if m = 4 ∨ m = 6 ∨ m = 9 ∨ m = 11 then 30
  else 31

/-- Microseconds encoded by a fractional-second digit string of length one
to six, right-padded with zeros as Python does. -/
def microOfDigits (ds : List Nat) : Nat :=
  (ds.foldl (fun a d => 10 * a + d) 0) * 10 ^ (6 - ds.length)

/-- Reads an optional trailing UTC offset of the form +HH:MM or -HH:MM and
requires the end of input, as datetime.fromisoformat does. -/
def parseOffsetEnd : List Char → Option (Option Int)
  | [] => some none
  | c :: rest =>
    if c = '+' ∨ c = '-' then
      match parse2 rest with
      | some (oh, r1) =>
        match expectChar ':' r1 with
        | some r2 =>
          match parse2 r2 with
          | some (om, r3) =>
            if 23 < oh ∨ 59 < om then none
            else
              match r3 with
              | [] => some (some ((if c = '-' then -1 else 1) * ((oh : Int) * 60 + om)))
              | _ => none
          | none => none
        | none => none
      | none => none
    else none

/-- Reads the time-of-day part HH:MM[:SS[.ffffff]] and the optional offset. -/
def parseTimeAndOffset (cs : List Char) : Option (Nat × Nat × Nat × Nat × Option Int) := do
  let (hh, cs1) ← parse2 cs
  let cs2 ← expectChar ':' cs1
  let (mi, cs3) ← parse2 cs2
  if 23 < hh ∨ 59 < mi then none
  else
    match cs3 with
    | ':' :: cs4 => do
      let (ss, cs5) ← parse2 cs4
      if 59 < ss then none
      else
        match cs5 with
        | '.' :: cs6 =>
          let dsr := takeDigits cs6
          if dsr.1.length < 1 ∨ 6 < dsr.1.length then none
          else do
            let off ← parseOffsetEnd dsr.2
            some (hh, mi, ss, microOfDigits dsr.1, off)
        | _ => do
          let off ← parseOffsetEnd cs5
          some (hh, mi, ss, 0, off)
    | _ => do
      let off ← parseOffsetEnd cs3
      some (hh, mi, 0, 0, off)

/-- Model of datetime.fromisoformat: accepts YYYY-MM-DD, optionally followed
by a separator (letter T or a space) and HH:MM[:SS[.ffffff]][+HH:MM], with
field ranges validated as the datetime constructor does. -/
def fromisoformat (s : String) : Option PyDateTime := do
  let cs := s.toList
  let (y, cs1) ← parse4 cs
  let cs2 ← expectChar '-' cs1
  let (mo, cs3) ← parse2 cs2
  let cs4 ← expectChar '-' cs3
  let (d, cs5) ← parse2 cs4
  if y < 1 ∨ mo < 1 ∨ 12 < mo ∨ d < 1 ∨ daysInMonth y mo < d then none
  else
    match cs5 with
    | [] => some ⟨y, mo, d, 0, 0, 0, 0, none⟩
    | sep :: cs6 =>
      if sep = 'T' ∨ sep = ' ' then do
        let (hh, mi, ss, us, off) ← parseTimeAndOffset cs6
        some ⟨y, mo, d, hh, mi, ss, us, off⟩
      else none

/-- Model of the Python expression s.replace(letter Z, plus-zero offset text)
applied before fromisoformat in both the tailing and the pruning path. -/
def replaceZ (s : String) : String :=
  String.mk (s.toList.foldr
    (fun c acc => if c = 'Z' then '+' :: '0' :: '0' :: ':' :: '0' :: '0' :: acc else c :: acc) [])

/-- The timestamp parse performed by both paths of the source: replace the
letter Z by a zero offset, run fromisoformat, and default a naive result to
UTC by attaching a zero offset (lines 91-93 and 200-202 of the source). -/
def parseTsDefault (s : String) : Option PyDateTime :=
  (fromisoformat (replaceZ s)).map fun dt =>
    if dt.tzOffsetMinutes = none then { dt with tzOffsetMinutes := some 0 } else dt

/-- Days since 1970-01-01 of the stored calendar date (civil-days algorithm
over the proleptic Gregorian calendar). -/
def toEpochDays (dt : PyDateTime) : Int :=
  let y : Int := if dt.month ≤ 2 then (dt.year : Int) - 1 else (dt.year : Int)
  let era : Int := (if 0 ≤ y then y else y - 399) / 400
  let yoe : Int := y - era * 400
  let mp : Int := ((dt.month : Int) + 9) % 12
  let doy : Int := (153 * mp + 2) / 5 + (dt.day : Int) - 1
  let doe : Int := yoe * 365 + yoe / 4 - yoe / 100 + doy
  era * 146097 + doe - 719468

/-- The absolute instant of an aware datetime, in microseconds since the
epoch; aware datetime comparison in Python compares these instants. -/
def toEpochMicros (dt : PyDateTime) : Int :=
  (((toEpochDays dt * 24 + (dt.hour : Int)) * 60 + (dt.minute : Int)) * 60
      + (dt.second : Int)) * 1000000
    + (dt.microsecond : Int) - (dt.tzOffsetMinutes.getD 0) * 60000000

/-- Zero-padded decimal rendering of a field, as strftime does. -/
def padNum (width n : Nat) : String :=
  let s := toString n
  String.mk (List.replicate (width - s.length) '0') ++ s

/-- Model of line 217 of the source: strftime with the pattern
YYYY-MM-DDTHH:MM:SS.ffffffZ.  Note strftime renders the stored wall-clock
fields of the datetime and appends the letter Z literally; it performs no
conversion of the stored fields to UTC. -/
def strftimeZ (dt : PyDateTime) : String :=
  padNum 4 dt.year ++ "-" ++ padNum 2 dt.month ++ "-" ++ padNum 2 dt.day ++ "T" ++
  padNum 2 dt.hour ++ ":" ++ padNum 2 dt.minute ++ ":" ++ padNum 2 dt.second ++ "." ++
  padNum 6 dt.microsecond ++ "Z"

/-- Consumes digits possibly separated by single underscores, each
underscore required to sit between two digits, as Python float literals
allow. -/
def udigitsRest : List Char → List Char
  | '_' :: c :: rest => if c.isDigit then udigitsRest rest else '_' :: c :: rest
  | c :: rest => if c.isDigit then udigitsRest rest else c :: rest
  | [] => []

/-- Requires a leading digit, then consumes a digits-and-underscores run. -/
def udigitsStart : List Char → Option (List Char)
  | c :: rest => if c.isDigit then some (udigitsRest rest) else none
  | [] => none

/-- Accepts an optional exponent part followed by end of input. -/
def parseExpTail : List Char → Bool
  | [] => true
  | c :: rest =>
    if c = 'e' then
      let rest2 := match rest with
        | c2 :: r2 => if c2 = '+' ∨ c2 = '-' then r2 else c2 :: r2
        | [] => []
      match udigitsStart rest2 with
      | some [] => true
      | _ => false
    else false

/-- Accepts the body of a float literal after sign removal and lowering. -/
def pyFloatBody (cs : List Char) : Bool :=
  if cs = ['i', 'n', 'f'] ∨ cs = ['i', 'n', 'f', 'i', 'n', 'i', 't', 'y']
      ∨ cs = ['n', 'a', 'n'] then true
  else
    match cs with
    | '.' :: rest =>
      (match udigitsStart rest with
       | some r => parseExpTail r
       | none => false)
    | _ =>
      match udigitsStart cs with
      | some r =>
        (match r with
         | '.' :: r2 =>
           (match udigitsStart r2 with
            | some r3 => parseExpTail r3
            | none => parseExpTail r2)
         | _ => parseExpTail r)
      | none => false

/-- Strips whitespace from both ends, as float(str) does. -/
def stripWS (cs : List Char) : List Char :=
  ((cs.dropWhile Char.isWhitespace).reverse.dropWhile Char.isWhitespace).reverse

/-- Model of whether Python float(value) succeeds on a string: optional
surrounding whitespace, optional sign, then a decimal literal with optional
fraction and exponent, or one of inf, infinity, nan case-insensitively. -/
def pyFloatParses (s : String) : Bool :=
  let cs := (stripWS s.toList).map Char.toLower
  match cs with
  | '+' :: rest => pyFloatBody rest
  | '-' :: rest => pyFloatBody rest
  | _ => pyFloatBody cs

/-- A CSV data row as produced by csv.DictReader: the ordered mapping from
field name to textual cell value. -/
abbrev Row := List (String × String)

/-- A CSV file that exists on disk: the header field names and the data
rows (the header row is not a data row). -/
structure CsvFile where
  header : List String
  rows : List Row
deriving DecidableEq

/-- A JSON value as written by json.dumps for a converted record: a string,
a number (carried here by the accepted source text, since no claim depends
on the numeric value itself), or null. -/
inductive JsonValue where
  | str : String → JsonValue
  | num : String → JsonValue
  | null : JsonValue
deriving DecidableEq

/-- A converted record, one line of the destination JSONL file. -/
abbrev OutRow := List (String × JsonValue)

/-- The numeric-field allowlist of tail_csv_and_convert (lines 150-155). -/
def numeric_fields : List String :=
  ["fps", "win_packets", "win_lost", "win_late", "win_dup", "win_loss_pct",
   "acc_packets", "acc_lost", "acc_loss_pct", "avg_jitter_ms", "bitrate_kbps",
   "rtp_in", "rtp_gaps", "rtp_ooo", "buf_corrupted", "buf_discont",
   "buf_gapflag", "gap_events", "qos_dropped", "late_avg_ms", "late_max_ms"]

/-- One field of processed_row (lines 210-219): an allowlisted field becomes
float(value) on success and None on failure; the timestamp field becomes the
strftime rendering of the parsed datetime; every other field is copied as
text. -/
def transformField (dt : PyDateTime) (kv : String × String) : String × JsonValue :=
  if numeric_fields.contains kv.1 then
    (kv.1, if pyFloatParses kv.2 then JsonValue.num kv.2 else JsonValue.null)
  else if kv.1 = "timestamp" then
    (kv.1, JsonValue.str (strftimeZ dt))
  else
    (kv.1, JsonValue.str kv.2)

/-- Conversion of one source row (lines 195-219): none models a dropped row
(timestamp column absent, empty, or failing to parse); otherwise the fully
built processed_row. -/
def convertRow (row : Row) : Option OutRow :=
  match row.lookup "timestamp" with
  | some ts =>
    if ts = "" then none
    else
      match parseTsDefault ts with
      | some dt => some (row.map (transformField dt))
      | none => none
  | none => none

/-- The per-row write loop of one tailing pass (lines 194-222), with an
injected exception: failAt = some n means the write of the n-th emitted
line raises.  Returns the lines actually appended to the destination and
whether the pass raised. -/
def writeLoop : List Row → Option Nat → List OutRow × Bool
  | [], _ => ([], false)
  | r :: rs, failAt =>
    match convertRow r with
    | none => writeLoop rs failAt
    | some o =>
      match failAt with
      | some 0 => ([], true)
      | some (n + 1) =>
        let r1 := writeLoop rs (some n)
        (o :: r1.1, r1.2)
      | none =>
        let r1 := writeLoop rs none
        (o :: r1.1, r1.2)

/-- One tailing pass (lines 180-228): read the source, skip cursor data
rows, convert and append the rest, and advance the cursor by the appended
count only when no exception interrupted the pass (lines 224-225 are
skipped when the except block at line 227 runs).  A missing source file
(line 186) leaves everything unchanged. -/
def tail_pass (src : Option CsvFile) (cursor : Nat) (failAt : Option Nat) :
    Nat × List OutRow :=
  match src with
  | none => (cursor, [])
  | some f =>
    let r := writeLoop (f.rows.drop cursor) failAt
    (if r.2 then cursor else cursor + r.1.length, r.1)

/-- The cutoff instant (line 56): now minus retention_days days, in
microseconds since the epoch. -/
def cutoffMicros (now days : Int) : Int :=
  now - days * 86400000000

/-- The CSV pruning loop (lines 76-101): returns the kept rows in order,
the initial_line_count and the kept_line_count.  A row whose timestamp cell
is the literal text timestamp is skipped (lines 80-82); a row with a missing
or empty timestamp is kept (lines 84-88); a row whose timestamp parses is
kept iff its instant is at least the cutoff (lines 90-97); a row whose
timestamp fails to parse is kept (lines 98-101). -/
def pruneCsvLoop (cutoff : Int) : List Row → List Row × Nat × Nat
  | [] => ([], 0, 0)
  | row :: rest =>
    let r := pruneCsvLoop cutoff rest
    match row.lookup "timestamp" with
    | some ts =>
      if ts = "timestamp" then (r.1, r.2.1 + 1, r.2.2)
      else if ts = "" then (row :: r.1, r.2.1 + 1, r.2.2 + 1)
      else
        match parseTsDefault ts with
        | some dt =>
          if cutoff ≤ toEpochMicros dt then (row :: r.1, r.2.1 + 1, r.2.2 + 1)
          else (r.1, r.2.1 + 1, r.2.2)
        | none => (row :: r.1, r.2.1 + 1, r.2.2 + 1)
    | none => (row :: r.1, r.2.1 + 1, r.2.2 + 1)

/-- prune_file on a CSV file (lines 45-140).  The file argument is none when
the file does not exist (line 52: return None).  failMid true models an
exception anywhere inside the try block before os.replace at line 130: the
except block discards the temporary file and returns None, so the original
file is unchanged.  A file with no header reports zero and is not rewritten
(lines 68-71).  Otherwise the kept rows replace the file and the
kept_line_count is returned (lines 130-134). -/
def prune_file_csv (failMid : Bool) (now days : Int) (file : Option CsvFile) :
    Option CsvFile × Option Nat :=
  match file with
  | none => (none, none)
  | some f =>
    if failMid then (some f, none)
    else if f.header = [] then (some f, some 0)
    else
      let r := pruneCsvLoop (cutoffMicros now days) f.rows
      (some ⟨f.header, r.1⟩, some r.2.2)

/-- Whether the JSONL pruning branch (lines 103-125) keeps a record of the
destination file.  The destination is written by this same service, so its
lines are modelled as the already-structured records; a record whose
timestamp field is missing, null or empty is kept, a non-string timestamp
raises TypeError inside the try and is kept, an unparsable timestamp is
kept, and a parsed timestamp is kept iff its instant is at least the
cutoff. -/
def jsonlKeep (cutoff : Int) (rec : OutRow) : Bool :=
  match rec.lookup "timestamp" with
  | none => true
  | some JsonValue.null => true
  | some (JsonValue.num _) => true
  | some (JsonValue.str s) =>
    if s = "" then true
    else
      match parseTsDefault s with
      | none => true
      | some dt => decide (cutoff ≤ toEpochMicros dt)

/-- prune_file on the JSONL destination file, with the same missing-file and
mid-rewrite-failure behaviour as the CSV branch. -/
def prune_file_jsonl (failMid : Bool) (now days : Int) (file : Option (List OutRow)) :
    Option (List OutRow) × Option Nat :=
  match file with
  | none => (none, none)
  | some recs =>
    if failMid then (some recs, none)
    else
      let kept := recs.filter (jsonlKeep (cutoffMicros now days))
      (some kept, some kept.length)

/-- The prune-timer branch of one loop cycle (lines 169-178): prune the
destination file first and discard its result, then prune the source file,
and overwrite the cursor with the reported kept count exactly when the
source pruning did not fail. -/
def cleanupStep (destFail srcFail : Bool) (now days : Int)
    (dest : Option (List OutRow)) (src : Option CsvFile) (cursor : Nat) :
    Option (List OutRow) × Option CsvFile × Nat :=
  let destRes := prune_file_jsonl destFail now days dest
  let srcRes := prune_file_csv srcFail now days src
  match srcRes.2 with
  | some k => (destRes.1, srcRes.1, k)
  | none => (destRes.1, srcRes.1, cursor)

/-- Whether a CSV row is skipped by pruning as a duplicate of the header
(the test at line 80 compares the timestamp cell with the literal text
timestamp). -/
def headerDupRow (row : Row) : Bool :=
  decide (row.lookup "timestamp" = some "timestamp")

/-- The keep condition of the CSV pruning loop for a row that is not a
header duplicate: missing, empty or unparsable timestamp, or an instant at
least the cutoff. -/
def csvKeep (cutoff : Int) (row : Row) : Bool :=
  match row.lookup "timestamp" with
  | none => true
  | some ts =>
    if ts = "" then true
    else
      match parseTsDefault ts with
      | none => true
      | some dt => decide (cutoff ≤ toEpochMicros dt)

/-- The full keep predicate of CSV pruning. -/
def prunePred (cutoff : Int) (row : Row) : Bool :=
  !(headerDupRow row) && csvKeep cutoff row

/-- A tailing pass without an injected exception appends exactly the
convertible rows, in order. -/
theorem writeLoop_none_eq (l : List Row) :
    writeLoop l none = (l.filterMap convertRow, false) := by
  induction l with
  | nil => rfl
  | cons r rs ih =>
    simp only [writeLoop, List.filterMap_cons]
    cases h : convertRow r <;> simp [h, ih]

/-- A tailing pass whose n-th write raises appends exactly the first n
convertible rows, and raises iff there are more than n of them. -/
theorem writeLoop_some_eq (l : List Row) (n : Nat) :
    writeLoop l (some n)
      = ((l.filterMap convertRow).take n,
         decide (n < (l.filterMap convertRow).length)) := by
  induction l generalizing n with
  | nil => simp [writeLoop]
  | cons r rs ih =>
    cases h : convertRow r with
    | none => simp only [writeLoop, h, List.filterMap_cons, ih]
    | some o =>
      cases n with
      | zero => simp [writeLoop, h, List.filterMap_cons]
      | succ n =>
        simp [writeLoop, h, List.filterMap_cons, ih, Nat.succ_lt_succ_iff]

/-- When every row of a list converts, the conversion loses no row. -/
theorem filterMap_convert_length (l : List Row)
    (h : ∀ r ∈ l, (convertRow r).isSome = true) :
    (l.filterMap convertRow).length = l.length := by
  induction l with
  | nil => rfl
  | cons r rs ih =>
    have hr := h r (List.mem_cons_self r rs)
    have hrs : ∀ x ∈ rs, (convertRow x).isSome = true :=
      fun x hx => h x (List.mem_cons_of_mem r hx)
    cases hc : convertRow r with
    | none => rw [hc] at hr; simp at hr
    | some o => simp [List.filterMap_cons, hc, ih hrs]

/-- Dropping the cursor plus the remaining length exhausts the list. -/
theorem drop_cursor_exhausted {α : Type} (xs : List α) (n : Nat) :
    xs.drop (n + (xs.drop n).length) = [] := by
  apply List.drop_eq_nil_of_le
  rw [List.length_drop]
  omega

/-- The CSV pruning loop keeps exactly the rows satisfying prunePred,
counts every data row in initial_line_count, and counts exactly the kept
rows in kept_line_count. -/
theorem pruneCsvLoop_eq (cutoff : Int) (rows : List Row) :
    pruneCsvLoop cutoff rows
      = (rows.filter (prunePred cutoff), rows.length,
         (rows.filter (prunePred cutoff)).length) := by
  induction rows with
  | nil => rfl
  | cons row rest ih =>
    simp only [pruneCsvLoop, ih, List.filter_cons, List.length_cons]
    cases hl : row.lookup "timestamp" with
    | none =>
      simp [prunePred, headerDupRow, csvKeep, hl]
    | some ts =>
      by_cases h1 : ts = "timestamp"
      · subst h1
        simp [prunePred, headerDupRow, hl]
      · by_cases h2 : ts = ""
        · subst h2
          simp [prunePred, headerDupRow, csvKeep, hl]
        · cases hp : parseTsDefault ts with
          | none =>
            simp [prunePred, headerDupRow, csvKeep, hl, h1, h2, hp]
          | some dt =>
            by_cases h3 : cutoff ≤ toEpochMicros dt <;>
              simp [prunePred, headerDupRow, csvKeep, hl, h1, h2, hp, h3]

/-- C1: the claim states that a timestamp carrying a non-UTC zone offset is
converted to the equivalent UTC instant before being rendered with the
letter Z.  The code (line 217) renders the stored wall-clock fields with
strftime and appends the letter Z without any conversion, so the record for
the source timestamp 2024-01-01T12:00:00+05:00 is emitted as
2024-01-01T12:00:00.000000Z.  The source timestamp denotes the instant
1704092400000000 (microseconds since the epoch), also denoted by
2024-01-01T07:00:00.000000Z, while the emitted text denotes the different
instant 1704110400000000: the emitted record misstates the instant by the
zone offset.  The spec is clearly the intent (its invariant says every
emitted timestamp is normalized to UTC) and the missing conversion is a
slip in the code, so this is recorded as a code bug. -/
theorem c1_offset_rendered_without_conversion :
    convertRow [("timestamp", "2024-01-01T12:00:00+05:00")]
      = some [("timestamp", JsonValue.str "2024-01-01T12:00:00.000000Z")]
    ∧ (parseTsDefault "2024-01-01T12:00:00+05:00").map toEpochMicros
      = some 1704092400000000
    ∧ (parseTsDefault "2024-01-01T07:00:00.000000Z").map toEpochMicros
      = some 1704092400000000
    ∧ (parseTsDefault "2024-01-01T12:00:00.000000Z").map toEpochMicros
      = some 1704110400000000 := by
  exact ⟨by decide, by decide, by decide, by decide⟩

/-- C2: when every data record past the cursor has a parseable timestamp
(present, non-empty, and accepted by fromisoformat after the Z
replacement), one tailing pass is idempotent: re-running the pass with the
returned cursor on the unchanged file emits zero new records and returns
the same cursor. -/
theorem c2_tail_pass_idempotent (f : CsvFile) (cursor : Nat)
    (h : ∀ r ∈ f.rows.drop cursor, (convertRow r).isSome = true) :
    tail_pass (some f) ((tail_pass (some f) cursor none).1) none
      = ((tail_pass (some f) cursor none).1, []) := by
  have hlen : ((f.rows.drop cursor).filterMap convertRow).length
      = (f.rows.drop cursor).length := filterMap_convert_length _ h
  have h3 : f.rows.drop (cursor + ((f.rows.drop cursor).filterMap convertRow).length)
      = [] := by
    rw [hlen]
    exact drop_cursor_exhausted f.rows cursor
  simp [tail_pass, writeLoop_none_eq, h3]

theorem c2_tail_pass_idempotent_witness :
    tail_pass (some ⟨["timestamp"], [[("timestamp", "2024-01-01T00:00:00Z")]]⟩) 1 none
      = (1, []) := by
  have h := c2_tail_pass_idempotent
    ⟨["timestamp"], [[("timestamp", "2024-01-01T00:00:00Z")]]⟩ 0 (by decide)
  exact h

/-- C3 counterexample: the claim states that records following a dropped
record are not re-emitted over repeated passes on an unchanged file.  On
the file whose data rows are a record with an empty timestamp followed by a
record with a valid timestamp, the first pass (cursor 0) drops the first
row, emits the second, and advances the cursor only to 1 (the emitted
count); the second pass with cursor 1 skips only the dropped row, re-reads
the valid row and emits it again.  The same source record is thus emitted
twice, contradicting the claim at this concrete input. -/
theorem c3_counterexample_follower_reemitted :
    tail_pass (some ⟨["timestamp"],
        [[("timestamp", "")], [("timestamp", "2024-01-02T00:00:00Z")]]⟩) 0 none
      = (1, [[("timestamp", JsonValue.str "2024-01-02T00:00:00.000000Z")]])
    ∧ tail_pass (some ⟨["timestamp"],
        [[("timestamp", "")], [("timestamp", "2024-01-02T00:00:00Z")]]⟩) 1 none
      = (2, [[("timestamp", JsonValue.str "2024-01-02T00:00:00.000000Z")]]) := by
  exact ⟨by decide, by decide⟩

/-- C3 amended: a record dropped by the tailing pass (missing, empty or
unparsable timestamp) is never itself emitted, since the emitted lines are
exactly the filterMap of convertRow over the rows past the cursor and
convertRow is none on dropped rows; and the cursor advances by exactly the
number of emitted records, not past dropped rows, so records that follow a
dropped record are re-read on later passes and can be emitted more than
once. -/
theorem c3_amended_cursor_advances_by_emitted (f : CsvFile) (cursor : Nat) :
    (tail_pass (some f) cursor none).1
      = cursor + ((f.rows.drop cursor).filterMap convertRow).length
    ∧ (tail_pass (some f) cursor none).2
      = (f.rows.drop cursor).filterMap convertRow := by
  simp [tail_pass, writeLoop_none_eq]

/-- C4 counterexample: the claim states that pruning keeps a record if and
only if it has no parseable timestamp or its timestamp is at least the
cutoff.  A row whose timestamp cell is the literal text timestamp has no
parseable timestamp, yet pruning drops it (the duplicate-header test at
line 80 runs first), so the kept rows are empty and the kept count is zero
at this concrete input, contradicting the only-if direction. -/
theorem c4_counterexample_header_like_row_dropped :
    prune_file_csv false 0 0 (some ⟨["timestamp"], [[("timestamp", "timestamp")]]⟩)
      = (some ⟨["timestamp"], []⟩, some 0)
    ∧ parseTsDefault "timestamp" = none := by
  exact ⟨by decide, by decide⟩

/-- C4 amended: for every horizon value (including 0) and every record of
the pruned file, prune keeps the record if and only if its timestamp cell
is not the literal text timestamp (such rows are dropped as duplicate
headers) and either it has no parseable timestamp (always kept, with a
warning) or its timestamp, defaulted to UTC if unzoned, is at least now
minus the horizon; the kept rows are exactly the filter of the data rows by
this predicate, and with horizon 0 the cutoff equals now, so pruning keeps
exactly the non-header-duplicate records with timestamp at least now rather
than removing everything. -/
theorem c4_amended_keep_filter (now days : Int) (rows : List Row) :
    (pruneCsvLoop (cutoffMicros now days) rows).1
      = rows.filter (prunePred (cutoffMicros now days))
    ∧ cutoffMicros now 0 = now := by
  constructor
  · rw [pruneCsvLoop_eq]
  · simp [cutoffMicros]

/-- C5: on a mid-rewrite exception the CSV prune discards the temporary
file, leaves the original file unchanged and returns the failure marker
none; a missing input file also returns none and changes nothing; the
failure marker is distinct from a kept count of zero; and the scheduling
loop leaves the cursor unchanged whenever the source prune returns the
failure marker, both on a mid-rewrite failure and on a missing source
file. -/
theorem c5_prune_failure_preserves_state (now days : Int) (f : CsvFile)
    (dFail sFail : Bool) (dest : Option (List OutRow)) (cursor : Nat) :
    prune_file_csv true now days (some f) = (some f, none)
    ∧ prune_file_csv sFail now days none = (none, none)
    ∧ decide ((prune_file_csv true now days (some f)).2 = some 0) = false
    ∧ (cleanupStep dFail true now days dest (some f) cursor).2.2 = cursor
    ∧ (cleanupStep dFail sFail now days dest none cursor).2.2 = cursor := by
  refine ⟨rfl, rfl, rfl, ?_, ?_⟩ <;> simp [cleanupStep, prune_file_csv]

/-- C6 counterexample: the claim states that a dropped header-duplicate row
counts toward neither the kept total nor the removed total, and that only
rows textually identical to the header are so excluded.  On a file with the
single data row whose timestamp cell is the literal text timestamp, the
loop reports initial_line_count 1 and kept_line_count 0, so the removed
total it logs is 1 - 0 = 1: the dropped row is counted as removed.  The
second conjunct shows a row that also carries an fps cell, hence is not
textually identical to the header row, being dropped all the same: the
code tests only the timestamp cell. -/
theorem c6_counterexample_duplicate_header_counted_removed :
    pruneCsvLoop 0 [[("timestamp", "timestamp")]] = ([], 1, 0)
    ∧ pruneCsvLoop 0 [[("timestamp", "timestamp"), ("fps", "99")]] = ([], 1, 0) := by
  exact ⟨by decide, by decide⟩

/-- C6 amended: during CSV pruning, a data row whose timestamp cell equals
the literal text timestamp (which includes any row textually identical to
the header row, but also any other row with that cell value) is dropped
with a warning and never appears among the kept rows; it is not counted in
the kept total, but it is counted in the initial row count, and therefore
in the removed total reported by the log, which is initial minus kept. -/
theorem c6_amended_duplicate_header_totals (cutoff : Int) (rows : List Row) :
    (pruneCsvLoop cutoff rows).2.1 = rows.length
    ∧ (pruneCsvLoop cutoff rows).2.2 = (pruneCsvLoop cutoff rows).1.length
    ∧ (pruneCsvLoop cutoff rows).1.filter headerDupRow = [] := by
  rw [pruneCsvLoop_eq]
  refine ⟨rfl, rfl, ?_⟩
  rw [List.filter_eq_nil_iff]
  intro a ha
  have hp := (List.mem_filter.mp ha).2
  simp only [prunePred, Bool.and_eq_true, Bool.not_eq_true'] at hp
  simp [hp.1]

/-- C7: in the prune-timer branch of a cycle, the destination file is
pruned first and its result discarded, then the source file is pruned, and
the cursor is overwritten with the kept count reported by the source prune
whenever it succeeded, unconditionally in the current cursor value; the
resulting cursor is entirely independent of the destination prune, its
outcome and its kept count. -/
theorem c7_cursor_resync_from_source_prune
    (dFail dFail2 sFail : Bool) (now days : Int)
    (dest dest2 : Option (List OutRow)) (src : Option CsvFile) (cursor k : Nat) :
    ((prune_file_csv sFail now days src).2 = some k →
      (cleanupStep dFail sFail now days dest src cursor).2.2 = k)
    ∧ (cleanupStep dFail sFail now days dest src cursor).2.2
      = (cleanupStep dFail2 sFail now days dest2 src cursor).2.2 := by
  constructor
  · intro h
    simp [cleanupStep, h]
  · cases h : (prune_file_csv sFail now days src).2 <;> simp [cleanupStep, h]

theorem c7_cursor_resync_from_source_prune_witness :
    (cleanupStep true false 0 7 (some [])
        (some ⟨["timestamp"], [[("timestamp", "")]]⟩) 5).2.2 = 1 := by
  exact (c7_cursor_resync_from_source_prune true false false 0 7
    (some []) none (some ⟨["timestamp"], [[("timestamp", "")]]⟩) 5 1).1 (by decide)

/-- C8 counterexample: the claim states that an exception during a tailing
pass leaves the destination file unchanged by that pass.  On a file with
two convertible rows, when the write of the second emitted line raises, the
pass leaves the cursor at 0 but the first converted record has already been
appended to the destination, which therefore changed. -/
theorem c8_counterexample_partial_append :
    tail_pass (some ⟨["timestamp"],
        [[("timestamp", "2024-01-01T00:00:00Z")], [("timestamp", "2024-01-02T00:00:00Z")]]⟩)
        0 (some 1)
      = (0, [[("timestamp", JsonValue.str "2024-01-01T00:00:00.000000Z")]]) := by
  decide

/-- C8 amended: if an exception occurs during a single tailing pass the
cursor is unchanged and the failure is contained (the pass returns and the
loop retries next cycle, never fatally); however the records already
appended before the failure remain in the destination file, which grows by
a prefix of the emissions of that pass: a pass whose n-th write raises
appends the first n convertible records and leaves the cursor unchanged
exactly when the failure was actually reached. -/
theorem c8_amended_failure_keeps_cursor (f : CsvFile) (cursor n : Nat) :
    tail_pass (some f) cursor (some n)
      = (if n < ((f.rows.drop cursor).filterMap convertRow).length then cursor
         else cursor + ((f.rows.drop cursor).filterMap convertRow).length,
         ((f.rows.drop cursor).filterMap convertRow).take n) := by
  simp only [tail_pass, writeLoop_some_eq]
  by_cases h : n < ((f.rows.drop cursor).filterMap convertRow).length
  · simp [h]
  · simp [h, List.take_of_length_le (Nat.le_of_not_lt h)]

/-- C9: a converted record is never dropped because of a numeric field: the
whole processed row is the field-by-field transform of the source row, and
every field in the numeric allowlist is emitted as the parsed number when
float acceptance succeeds and as null when it does not, never as text. -/
theorem c9_numeric_allowlist_num_or_null (row : Row) (ts : String) (dt : PyDateTime)
    (h1 : row.lookup "timestamp" = some ts) (h2 : ts ≠ "")
    (h3 : parseTsDefault ts = some dt) :
    convertRow row = some (row.map (transformField dt))
    ∧ ∀ kv ∈ row, kv.1 ∈ numeric_fields →
        (transformField dt kv).2
          = (if pyFloatParses kv.2 then JsonValue.num kv.2 else JsonValue.null) := by
  constructor
  · simp [convertRow, h1, h2, h3]
  · intro kv _ hn
    simp [transformField, hn]

theorem c9_numeric_allowlist_num_or_null_witness :
    convertRow [("timestamp", "2024-01-01T00:00:00Z"), ("fps", "abc")]
      = some [("timestamp", JsonValue.str "2024-01-01T00:00:00.000000Z"),
              ("fps", JsonValue.null)] := by
  have h := c9_numeric_allowlist_num_or_null
    [("timestamp", "2024-01-01T00:00:00Z"), ("fps", "abc")]
    "2024-01-01T00:00:00Z" ⟨2024, 1, 1, 0, 0, 0, 0, some 0⟩
    (by decide) (by decide) (by decide)
  exact h.1.trans (by decide)

/-- C10: a successful prune of a CSV file with a header rewrites the file
with the same header (same field names, same order) and exactly the kept
data rows, and the returned kept count equals the number of data rows of
the rewritten file, the header excluded; consequently, after a successful
source prune in a cycle the resynchronized cursor equals exactly the number
of data records in the pruned source file. -/
theorem c10_prune_header_and_kept_count (now days : Int) (f : CsvFile)
    (dFail : Bool) (dest : Option (List OutRow)) (cursor : Nat)
    (h : f.header ≠ []) :
    prune_file_csv false now days (some f)
      = (some ⟨f.header, (pruneCsvLoop (cutoffMicros now days) f.rows).1⟩,
         some (pruneCsvLoop (cutoffMicros now days) f.rows).1.length)
    ∧ (cleanupStep dFail false now days dest (some f) cursor).2.2
      = (pruneCsvLoop (cutoffMicros now days) f.rows).1.length := by
  have hk : (pruneCsvLoop (cutoffMicros now days) f.rows).2.2
      = (pruneCsvLoop (cutoffMicros now days) f.rows).1.length := by
    rw [pruneCsvLoop_eq]
  constructor
  · simp [prune_file_csv, h, hk]
  · simp [cleanupStep, prune_file_csv, h, hk]

theorem c10_prune_header_and_kept_count_witness :
    prune_file_csv false 0 7 (some ⟨["timestamp"], [[("timestamp", "")]]⟩)
      = (some ⟨["timestamp"], [[("timestamp", "")]]⟩, some 1)
    ∧ (cleanupStep true false 0 7 none
        (some ⟨["timestamp"], [[("timestamp", "")]]⟩) 9).2.2 = 1 := by
  have h := c10_prune_header_and_kept_count 0 7
    ⟨["timestamp"], [[("timestamp", "")]]⟩ true none 9 (by decide)
  exact ⟨h.1.trans (by decide), h.2.trans (by decide)⟩
